import Mathlib

/-!
Verification of the OAuth Provisioning & Credential-Flow Manager
(`src/auth_api.py`) against its natural-language specification.

The Python module is shallowly embedded: the process-wide `auth_flows`
dictionary becomes an insertion-ordered association list, Python dict
values become a `FlowData` structure, timestamps are integers, and
Python truthiness of optional strings is made explicit (`pyTruthy`).
Network calls, random UUIDs and the filesystem are passed in as
explicit parameters so every function stays pure and executable.
-/

namespace GCLI

/-- Python truthiness for an optional string: `None` and `""` are falsy. -/
def pyTruthy : Option String → Bool
  | none => false
  | some s => !s.isEmpty

/-- Whether the character list `hay` starts with `needle`. -/
def charsStartWith : List Char → List Char → Bool
  | _, [] => true
  | [], _ :: _ => false
  | h :: hs, n :: ns => h = n && charsStartWith hs ns

/-- Whether `needle` occurs as a contiguous substring of `hay`
(the embedding of Python's `needle in hay` on strings). -/
def charsContain (hay needle : List Char) : Bool :=
  match hay with
  | [] => charsStartWith [] needle
  | _ :: t => charsStartWith hay needle || charsContain t needle

/-- String-level substring test: Python `needle in hay`. -/
def strContains (hay needle : String) : Bool :=
  charsContain hay.toList needle.toList

/-- One entry of the `auth_flows` table (the dict built at
`create_auth_url`): the fields of one OAuth provisioning attempt.
The `server` flag models holding a live `HTTPServer` handle. -/
structure FlowData where
  project_id : Option String
  user_session : Option String
  callback_port : Nat
  server : Bool
  code : Option String
  completed : Bool
  created_at : Int
  auto_project_detection : Bool
deriving Repr, DecidableEq

/-- The `auth_flows` dict: insertion-ordered association list keyed by
the opaque `state` token. -/
abbrev Store := List (String × FlowData)

/-- Python `auth_flows[state] = fd`: replace in place when the key
exists, else append preserving insertion order. -/
def storeInsert (k : String) (v : FlowData) (store : Store) : Store :=
  if (store.lookup k).isSome then
    store.map (fun p => if p.1 = k then (k, v) else p)
  else
    store ++ [(k, v)]

/-- In-place field update of the flow stored under key `k`
(Python `auth_flows[state][...] = ...`). -/
def storeUpdate (k : String) (f : FlowData → FlowData) (store : Store) : Store :=
  store.map (fun p => if p.1 = k then (p.1, f p.2) else p)

/-- Python `del auth_flows[state]`: remove the (first) entry with key `k`. -/
def storeErase (k : String) (store : Store) : Store :=
  store.eraseP (fun p => p.1 == k)

/-- Embedding of `AuthCallbackHandler.do_GET`: given the `code` and
`state` query parameters (absent → `none`) and the current flow store,
return the updated store and the HTTP status sent.  Mirrors
`if code and state and state in auth_flows:` — on a match the flow's
`code` is assigned the received value and `completed` is set; otherwise
the store is untouched and 400 is sent. -/
def do_GET (code state : Option String) (store : Store) : Store × Nat :=
  if pyTruthy code && pyTruthy state && (store.lookup (state.getD "")).isSome then
    (storeUpdate (state.getD "")
      (fun fd => { fd with code := code, completed := true }) store, 200)
  else
    (store, 400)

/-- Embedding of `find_available_port`: `avail p` says port `p` can be
bound; the function scans `start, start+1, …, start+99` and returns the
first bindable port, falling back to an OS-assigned port
(`osAssigned = none` models the final `OSError`, which the Python code
turns into a `RuntimeError`). -/
def find_available_port (avail : Nat → Bool) (start : Nat) (osAssigned : Option Nat) :
    Option Nat :=
  match (List.range 100).find? (fun i => avail (start + i)) with
  | some i => some (start + i)
  | none => osAssigned

/-- TTL of an auth flow in seconds (`EXPIRY_TIME = 600` in
`cleanup_expired_flows`). -/
def EXPIRY_TIME : Int := 600

/-- Embedding of `cleanup_expired_flows`: removes every flow whose age
strictly exceeds `EXPIRY_TIME`, attempting a listener shutdown first for
each removed flow that still holds a server handle.  Returns the
surviving store together with the list of callback ports on which a
shutdown was attempted, in removal order. -/
def cleanup_expired_flows (now : Int) (store : Store) : Store × List Nat :=
  let expired := store.filter (fun p => now - p.2.created_at > EXPIRY_TIME)
  let kept := store.filter (fun p => !(now - p.2.created_at > EXPIRY_TIME : Bool))
  (kept, (expired.filter (fun p => p.2.server)).map (fun p => p.2.callback_port))

/-- Comparator of the count-based eviction: `a` sorts no later than `b`
when `a` is at least as new (descending `created_at`). -/
def flowsLe (a b : String × FlowData) : Bool :=
  b.2.created_at ≤ a.2.created_at

/-- Python's stable `sorted(auth_flows.items(), key=created_at,
reverse=True)`: a stable merge sort putting the largest `created_at`
first. -/
def flowsByNewest (l : Store) : Store :=
  l.mergeSort flowsLe

/-- Embedding of `cleanup_auth_flows_for_memory`: first run the expiry
sweep; if more than 10 flows remain, keep only the 10 newest by
`created_at` (Python's stable `sorted(..., reverse=True)` then
`dict(sorted_flows[:10])`), attempting a listener shutdown for each
evicted flow that holds a server. -/
def cleanup_auth_flows_for_memory (now : Int) (store : Store) : Store × List Nat :=
  let swept := cleanup_expired_flows now store
  let store1 := swept.1
  if store1.length > 10 then
    let sorted_flows := flowsByNewest store1
    let new_auth_flows := sorted_flows.take 10
    let evicted := store1.filter
      (fun p => !(new_auth_flows.map Prod.fst).contains p.1)
    (new_auth_flows,
      swept.2 ++ (evicted.filter (fun p => p.2.server)).map (fun p => p.2.callback_port))
  else
    (store1, swept.2)

/-- State-token construction of `create_auth_url`:
`user_session + "_" + uuid` for a truthy session, else the bare uuid. -/
def mkState (user_session : Option String) (uuid : String) : String :=
  if pyTruthy user_session then user_session.getD "" ++ "_" ++ uuid else uuid

/-- The freshly registered flow record of `create_auth_url`
(`auth_flows[state] = ...`): no code yet, not completed, holding the
listener, `auto_project_detection` iff no project id was supplied. -/
def newFlowData (project_id user_session : Option String) (callback_port : Nat)
    (now : Int) : FlowData :=
  { project_id := project_id
    user_session := user_session
    callback_port := callback_port
    server := true
    code := none
    completed := false
    created_at := now
    auto_project_detection := project_id.isNone }

/-- The structured result returned by `create_auth_url`. -/
structure CreateResult where
  success : Bool
  error : Option String
  auth_url : Option String
  state : Option String
  callback_port : Option Nat
deriving Repr, DecidableEq

/-- Embedding of `create_auth_url`.  Environment effects are passed in:
`avail`/`start`/`osAssigned` drive the port allocator, `listenerOk p`
says whether `create_callback_server`/thread start succeeds on port
`p`, `uuid` is the fresh random UUID, `authUrl` the provider URL built
by the OAuth library, and `now` the current time.  On port-allocation
failure or listener-start failure a structured failure is returned and
the store is left untouched; on success the flow is registered under
`state = user_session ++ "_" ++ uuid` (when a session is given, else
the bare uuid) and an expiry sweep runs. -/
def create_auth_url (avail : Nat → Bool) (start : Nat) (osAssigned : Option Nat)
    (listenerOk : Nat → Bool) (project_id user_session : Option String)
    (uuid : String) (authUrl : String) (now : Int) (store : Store) :
    Store × CreateResult :=
  match find_available_port avail start osAssigned with
  | none =>
      (store, ⟨false, some "无法找到可用端口", none, none, none⟩)
  | some callback_port =>
      if !listenerOk callback_port then
        (store, ⟨false, some "无法启动OAuth回调服务器", none, none, none⟩)
      else
        let state := mkState user_session uuid
        let fd := newFlowData project_id user_session callback_port now
        let store1 := storeInsert state fd store
        let store2 := (cleanup_expired_flows now store1).1
        (store2, ⟨true, none, some authUrl, some state, some callback_port⟩)

/-- One polling iteration sequence of `wait_for_callback_sync`: the loop
holds a `flow_data` reference, returns the code as soon as the held
reference shows one, and otherwise sleeps and refreshes the reference
from the store *only if* the state is still present.  `trace t` is the
content of `auth_flows` at poll tick `t`; `fuel` is the number of
iterations the `timeout` allows (timeout / 0.5 s). -/
def syncWaitLoop (state : String) (trace : Nat → Store) :
    Nat → FlowData → Nat → Option String
  | 0, _, _ => none
  | fuel + 1, fd, tick =>
      if pyTruthy fd.code then fd.code
      else
        let fd' := match (trace (tick + 1)).lookup state with
          | some d => d
          | none => fd
        syncWaitLoop state trace fuel fd' (tick + 1)

/-- Embedding of `wait_for_callback_sync`: `none` when the state is
unknown at call time, else the polling loop; `none` is also the value
returned when the deadline elapses. -/
def wait_for_callback_sync (state : String) (trace : Nat → Store) (fuel : Nat) :
    Option String :=
  match (trace 0).lookup state with
  | none => none
  | some fd => syncWaitLoop state trace fuel fd 0

/-- The flow-lookup loop shared by `complete_auth_flow` and
`asyncio_complete_auth_flow`: scan the store for entries satisfying
`pred`; take the first whose `user_session` equals the given (truthy)
session, breaking immediately; otherwise remember the first plain
match. -/
def matchLoop (pred : FlowData → Bool) (user_session : Option String)
    (store : Store) : Option (String × FlowData) :=
  match store.find? (fun p => pred p.2 &&
      (pyTruthy user_session && (p.2.user_session == user_session))) with
  | some p => some p
  | none => store.find? (fun p => pred p.2)

/-- Flow selection of the two completion entry points: when a truthy
`project_id` is supplied first try flows with that exact `project_id`;
when that finds nothing (or no id was supplied), fall back to flows
marked `auto_project_detection`. -/
def findFlow (project_id user_session : Option String) (store : Store) :
    Option (String × FlowData) :=
  let byProject := if pyTruthy project_id then
      matchLoop (fun d => d.project_id == project_id) user_session store
    else none
  match byProject with
  | some p => some p
  | none => matchLoop (fun d => d.auto_project_detection) user_session store

/-- Outcome of the find-and-wait phase of `asyncio_complete_auth_flow`
(up to the point where an authorization code is in hand). -/
inductive AsyncWaitOutcome where
  | notFoundError
  | timeoutError
  | gotCode (code : String) (fd : FlowData)
deriving Repr, DecidableEq

/-- The cooperative polling loop of `asyncio_complete_auth_flow`
(`while waited < max_wait_time`): break as soon as the held
`flow_data` reference shows a code, else sleep one tick and refresh the
reference when the state is still in the store.  Returns the final held
reference. -/
def asyncioWaitLoop (state : String) (trace : Nat → Store) :
    Nat → FlowData → Nat → FlowData
  | 0, fd, _ => fd
  | fuel + 1, fd, tick =>
      if pyTruthy fd.code then fd
      else
        let fd' := match (trace (tick + 1)).lookup state with
          | some d => d
          | none => fd
        asyncioWaitLoop state trace fuel fd' (tick + 1)

/-- Find-and-wait phase of `asyncio_complete_auth_flow`: locate a flow
via `findFlow` (absence yields the "未找到对应的认证流程" error result),
then poll cooperatively for up to `max_wait_time = 60` ticks of 1 s;
a still-missing code afterwards yields the timeout error result. -/
def asyncio_wait_phase (project_id user_session : Option String)
    (trace : Nat → Store) : AsyncWaitOutcome :=
  match findFlow project_id user_session (trace 0) with
  | none => .notFoundError
  | some (state, fd) =>
      let fd' := asyncioWaitLoop state trace 60 fd 0
      match fd'.code with
      | some c => if c.isEmpty then .timeoutError else .gotCode c fd'
      | none => .timeoutError

/-- One candidate project as returned by the `projects:search` listing
(each field read with `.get`, hence optional). -/
structure Project where
  projectId : Option String
  displayName : Option String
  projectNumber : Option String
deriving Repr, DecidableEq, Inhabited

/-- ASCII lowercasing of one character (the effect of Python's
`str.lower()` on the ASCII range, which is all that matters for
matching the ASCII needle "default"). -/
def asciiLowerChar (c : Char) : Char :=
  if c.toNat ≥ 65 && c.toNat ≤ 90 then Char.ofNat (c.toNat + 32) else c

/-- String lowercasing used by the default-project heuristic. -/
def strToLower (s : String) : String := ⟨s.data.map asciiLowerChar⟩

/-- The default-selection predicate of `select_default_project`:
`'default' in display_name or 'default' in project_id.lower()` with the
display name already lowercased. -/
def isDefaultMatch (p : Project) : Bool :=
  strContains (strToLower (p.displayName.getD "")) "default" ||
  strContains (strToLower (p.projectId.getD "")) "default"

/-- Embedding of `select_default_project`: `none` for an empty list;
otherwise the `projectId` of the first project whose display name or id
contains "default" case-insensitively, else the first project's
`projectId` (the `.get` defaults make a missing id the empty string). -/
def select_default_project (projects : List Project) : Option String :=
  match projects with
  | [] => none
  | first :: _ =>
      match projects.find? isDefaultMatch with
      | some p => some (p.projectId.getD "")
      | none => some (first.projectId.getD "")

/-- Classification of the project-resolution step that runs after the
token exchange when the flow needs auto-detection and no project id was
supplied. -/
inductive ProjectResolution where
  | resolved (pid : String)
  | requiresManual
  | requiresSelection (available : List Project)
deriving Repr, DecidableEq

/-- Embedding of the post-exchange project-resolution branch shared by
`complete_auth_flow` and `asyncio_complete_auth_flow` (entered with
`auto_project_detection` set and no truthy project id): an empty
listing demands a manual id; a single candidate is taken by its
`projectId` (a falsy id falls through to the manual-id error); with
several candidates `select_default_project` picks one, and only a falsy
pick surfaces the selection-required result carrying all candidates in
input order. -/
def resolve_project_after_exchange (user_projects : List Project) :
    ProjectResolution :=
  match user_projects with
  | [] => .requiresManual
  | first :: rest =>
      if rest.isEmpty then
        match first.projectId with
        | some pid => if pid.isEmpty then .requiresManual else .resolved pid
        | none => .requiresManual
      else
        match select_default_project user_projects with
        | some pid =>
            if pid.isEmpty then .requiresSelection user_projects
            else .resolved pid
        | none => .requiresSelection user_projects

/-- Abstract filesystem of the credentials directory: the list of
filenames that currently exist. -/
abbrev FileSys := List String

/-- Embedding of `save_credentials`: derive the filename from
`project_id` and the current integer timestamp, then `open(..., "w")`.
Returns the path written, whether an existing file was overwritten
(the target already existed), and the resulting filesystem. -/
def save_credentials (project_id : String) (timestamp : Int) (fs : FileSys) :
    String × Bool × FileSys :=
  let filename := project_id ++ "-" ++ toString timestamp ++ ".json"
  (filename, fs.contains filename,
    if fs.contains filename then fs else fs ++ [filename])

/-- The collision-probing `while os.path.exists(file_path)` loop of
`save_uploaded_credential`: append `-counter` and increment until the
name is free; `fuel` bounds the number of iterations inspected. -/
def probeLoop (base_name ts : String) (fs : FileSys) :
    Nat → Nat → String
  | 0, counter => base_name ++ "-" ++ ts ++ "-" ++ toString counter ++ ".json"
  | fuel + 1, counter =>
      let fn := base_name ++ "-" ++ ts ++ "-" ++ toString counter ++ ".json"
      if fs.contains fn then probeLoop base_name ts fs fuel (counter + 1)
      else fn

/-- Embedding of the filename derivation plus uniqueness probe of
`save_uploaded_credential`: start from `base_name-timestamp.json` and,
on collision, probe `base_name-timestamp-1.json`, `-2`, … until free. -/
def uploaded_file_name (base_name ts : String) (fs : FileSys) (fuel : Nat) :
    String :=
  let fn0 := base_name ++ "-" ++ ts ++ ".json"
  if fs.contains fn0 then probeLoop base_name ts fs fuel 1 else fn0

/-- Embedding of `save_uploaded_credential` (the persistence part,
entered once `validate_credential_file` accepted the content): compute
the unique name and write it.  Returns the path, whether an existing
file was overwritten, and the new filesystem. -/
def save_uploaded_credential (base_name ts : String) (fs : FileSys) (fuel : Nat) :
    String × Bool × FileSys :=
  let fn := uploaded_file_name base_name ts fs fuel
  (fn, fs.contains fn, if fs.contains fn then fs else fs ++ [fn])

/-- Panel token TTL in seconds (`TOKEN_EXPIRY = 21600`). -/
def TOKEN_EXPIRY : Int := 21600

/-- The `auth_tokens` dict: token → issuance time. -/
abbrev TokenTable := List (String × Int)

/-- Embedding of `cleanup_expired_tokens`: drop every token strictly
older than `TOKEN_EXPIRY`. -/
def cleanup_expired_tokens (now : Int) (tokens : TokenTable) : TokenTable :=
  tokens.filter (fun p => !(now - p.2 > TOKEN_EXPIRY : Bool))

/-- Python `auth_tokens[token] = now`. -/
def tokenInsert (k : String) (v : Int) (tokens : TokenTable) : TokenTable :=
  if (tokens.lookup k).isSome then
    tokens.map (fun p => if p.1 = k then (k, v) else p)
  else
    tokens ++ [(k, v)]

/-- Embedding of `generate_auth_token`: sweep expired tokens, then store
the freshly generated `token` (passed in, standing for
`secrets.token_urlsafe(32)`) with the current time. -/
def generate_auth_token (token : String) (now : Int) (tokens : TokenTable) :
    String × TokenTable :=
  let t1 := cleanup_expired_tokens now tokens
  (token, tokenInsert token now t1)

/-- Embedding of `verify_auth_token`: falsy or unknown tokens verify
false; a known token older than `TOKEN_EXPIRY` is deleted as a side
effect and verifies false; otherwise true. -/
def verify_auth_token (token : String) (now : Int) (tokens : TokenTable) :
    Bool × TokenTable :=
  if !pyTruthy (some token) then (false, tokens)
  else
    match tokens.lookup token with
    | none => (false, tokens)
    | some created_at =>
        if now - created_at > TOKEN_EXPIRY then
          (false, tokens.eraseP (fun p => p.1 == token))
        else (true, tokens)

/-- Embedding of `invalidate_auth_token`: delete the token if present. -/
def invalidate_auth_token (token : String) (tokens : TokenTable) : TokenTable :=
  if (tokens.lookup token).isSome then tokens.eraseP (fun p => p.1 == token)
  else tokens

/-- A value of the module-level
`oauthlib.oauth2.rfc6749.parameters.validate_token_parameters` slot:
either some original function (identified abstractly) or the
Warning-swallowing wrapper closing over a previous value. -/
inductive Validator where
  | base (id : Nat)
  | patchedOf (orig : Validator)
deriving Repr, DecidableEq

/-- Mutable state threaded through a completion attempt: the flow
store, the credentials directory, the oauthlib module slot, and the
projects for which API enablement was attempted. -/
structure AuthState where
  store : Store
  fs : FileSys
  validator : Validator
  apisEnabledFor : List String
deriving Repr, DecidableEq

/-- Result of the guarded section of a completion attempt (everything
from the monkey-patch to the final return). -/
inductive CompleteResult where
  | fetchFailed (e : String)
  | manualProjectRequired
  | projectSelectionRequired (available : List Project)
  | success (pid : String) (path : String)
deriving Repr, DecidableEq

/-- Teardown of a used flow (`if state in auth_flows: … del`): shut the
listener down when one is held and remove the entry. -/
def teardownFlow (state : String) (store : Store) : Store :=
  match store.lookup state with
  | none => store
  | some _ => storeErase state store

/-- Embedding of the guarded token-exchange section of
`complete_auth_flow` (lines 530–646): capture the module-level
validator, install the Warning-swallowing patch, run the body —
`fetch_token` (outcome passed in), the project-resolution branch,
credential persistence and flow teardown — with any raised exception
converted to a structured failure by the inner `except`, and restore
the captured validator in the `finally`. -/
def complete_fetch_section (st : AuthState) (state : String) (fd : FlowData)
    (project_id : Option String) (fetchOutcome : Except String Unit)
    (user_projects : List Project) (timestamp : Int) :
    AuthState × CompleteResult :=
  let original_validate := st.validator
  let st1 := { st with validator := .patchedOf original_validate }
  let body : AuthState × CompleteResult :=
    match fetchOutcome with
    | .error e => (st1, .fetchFailed e)
    | .ok _ =>
        let res : ProjectResolution :=
          if fd.auto_project_detection && !pyTruthy project_id then
            resolve_project_after_exchange user_projects
          else if pyTruthy project_id then .resolved (project_id.getD "")
          else .requiresManual
        match res with
        | .requiresManual => (st1, .manualProjectRequired)
        | .requiresSelection ps => (st1, .projectSelectionRequired ps)
        | .resolved pid =>
            let saved := save_credentials pid timestamp st1.fs
            let store' := teardownFlow state st1.store
            ({ st1 with fs := saved.2.2, store := store' },
              .success pid saved.1)
  ({ body.1 with validator := original_validate }, body.2)

/-- Embedding of the guarded token-exchange section of
`asyncio_complete_auth_flow` (lines 777–907): identical patch/restore
structure, but API enablement is attempted for the resolved project
(both in the auto-detected branches and for an already-supplied id). -/
def asyncio_fetch_section (st : AuthState) (state : String) (fd : FlowData)
    (project_id : Option String) (fetchOutcome : Except String Unit)
    (user_projects : List Project) (timestamp : Int) :
    AuthState × CompleteResult :=
  let original_validate := st.validator
  let st1 := { st with validator := .patchedOf original_validate }
  let body : AuthState × CompleteResult :=
    match fetchOutcome with
    | .error e => (st1, .fetchFailed e)
    | .ok _ =>
        let res : ProjectResolution :=
          if fd.auto_project_detection && !pyTruthy project_id then
            resolve_project_after_exchange user_projects
          else if pyTruthy project_id then .resolved (project_id.getD "")
          else .requiresManual
        match res with
        | .requiresManual => (st1, .manualProjectRequired)
        | .requiresSelection ps => (st1, .projectSelectionRequired ps)
        | .resolved pid =>
            let st2 := { st1 with apisEnabledFor := st1.apisEnabledFor ++ [pid] }
            let saved := save_credentials pid timestamp st2.fs
            let store' := teardownFlow state st2.store
            ({ st2 with fs := saved.2.2, store := store' },
              .success pid saved.1)
  ({ body.1 with validator := original_validate }, body.2)

/-! ## Theorems -/

/-- Updating the flow stored under `k` is visible through `lookup k`. -/
theorem lookup_storeUpdate (k : String) (f : FlowData → FlowData) (store : Store) :
    (storeUpdate k f store).lookup k = (store.lookup k).map f := by
  induction store with
  | nil => rfl
  | cons p t ih =>
      obtain ⟨a, b⟩ := p
      show List.lookup k ((if a = k then (a, f b) else (a, b)) :: storeUpdate k f t) = _
      by_cases h : a = k
      · rw [if_pos h]
        subst h
        simp [List.lookup]
      · rw [if_neg h]
        have h1 : (k == a) = false := beq_eq_false_iff_ne.mpr (Ne.symm h)
        simp only [List.lookup, h1]
        exact ih

/-- Claim C1, counterexample: the callback handler does NOT protect an
already-set code.  For a live flow `S` whose code is already `"X"`, a
second callback carrying `code=Y` overwrites it with `"Y"`. -/
theorem C1_counterexample :
    ((do_GET (some "Y") (some "S")
        [("S", ⟨none, none, 8080, true, some "X", true, 100, true⟩)]).1.lookup "S").map
      FlowData.code = some (some "Y") := by decide

/-- Claim C1 (amended): the Callback Listener handling `code=X&state=S`
for a live flow `S` sets that flow's code to exactly `X` and marks it
completed, responding 200 — but it does so on every matching callback,
so a later callback for the same `S` overwrites an already-set code
rather than preserving it (the statement holds for arbitrary prior
`fd.code`, including an already-set one). -/
theorem C1_amended_thm (codeX S : String) (store : Store) (fd : FlowData)
    (hx : codeX.isEmpty = false) (hS : S.isEmpty = false)
    (hlive : store.lookup S = some fd) :
    ((do_GET (some codeX) (some S) store).1.lookup S) =
      some { fd with code := some codeX, completed := true } ∧
    (do_GET (some codeX) (some S) store).2 = 200 := by
  simp [do_GET, pyTruthy, hx, hS, hlive, lookup_storeUpdate]

/-- Witness for C1_amended_thm at a concrete overwriting callback. -/
theorem C1_amended_witness :
    ((do_GET (some "Y") (some "S")
        [("S", ⟨none, none, 8080, true, some "X", true, 100, true⟩)]).1.lookup "S") =
      some ⟨none, none, 8080, true, some "Y", true, 100, true⟩ ∧
    (do_GET (some "Y") (some "S")
        [("S", ⟨none, none, 8080, true, some "X", true, 100, true⟩)]).2 = 200 :=
  C1_amended_thm "Y" "S" [("S", ⟨none, none, 8080, true, some "X", true, 100, true⟩)]
    ⟨none, none, 8080, true, some "X", true, 100, true⟩
    (by decide) (by decide) (by decide)

/-- Claim C8: a GET whose `code` parameter is absent, or whose `state`
matches no live flow, leaves every flow unchanged (the whole store is
returned as-is) and is answered with status 400. -/
theorem C8_thm (code state : Option String) (store : Store)
    (h : code = none ∨ ∀ s, state = some s → store.lookup s = none) :
    do_GET code state store = (store, 400) := by
  unfold do_GET
  rcases h with h | h
  · subst h
    simp [pyTruthy]
  · cases state with
    | none => simp [pyTruthy]
    | some s =>
        have := h s rfl
        simp [pyTruthy, this]

/-- Witness for C8_thm: an unknown state on a store holding one flow. -/
theorem C8_witness :
    do_GET (some "Y") (some "T")
        [("S", ⟨none, none, 8080, true, none, false, 100, true⟩)] =
      ([("S", ⟨none, none, 8080, true, none, false, 100, true⟩)], 400) :=
  C8_thm (some "Y") (some "T") [("S", ⟨none, none, 8080, true, none, false, 100, true⟩)]
    (Or.inr (by intro s hs; cases hs; decide))

/-- Claim C2: when port allocation fails, or the callback listener
fails to start on the allocated port, `create_auth_url` returns a
structured failure (`success = false` with an error message) and the
flow store is exactly as it was before the call. -/
theorem C2_thm (avail : Nat → Bool) (start : Nat) (osAssigned : Option Nat)
    (listenerOk : Nat → Bool) (project_id user_session : Option String)
    (uuid authUrl : String) (now : Int) (store : Store)
    (h : find_available_port avail start osAssigned = none ∨
         ∃ p, find_available_port avail start osAssigned = some p ∧
           listenerOk p = false) :
    (create_auth_url avail start osAssigned listenerOk project_id user_session
        uuid authUrl now store).1 = store ∧
    (create_auth_url avail start osAssigned listenerOk project_id user_session
        uuid authUrl now store).2.success = false ∧
    (create_auth_url avail start osAssigned listenerOk project_id user_session
        uuid authUrl now store).2.error.isSome = true := by
  rcases h with h | ⟨p, hp, hl⟩
  · simp [create_auth_url, h]
  · simp [create_auth_url, hp, hl]

/-- Witness for C2_thm: no port in the scanned range binds and the OS
refuses an ephemeral port. -/
theorem C2_witness :
    (create_auth_url (fun _ => false) 8080 none (fun _ => true) none none
        "u" "url" 0 []).1 = [] ∧
    (create_auth_url (fun _ => false) 8080 none (fun _ => true) none none
        "u" "url" 0 []).2.success = false ∧
    (create_auth_url (fun _ => false) 8080 none (fun _ => true) none none
        "u" "url" 0 []).2.error.isSome = true :=
  C2_thm (fun _ => false) 8080 none (fun _ => true) none none "u" "url" 0 []
    (Or.inl (by decide))

/-- Claim C10: both completion variants restore the module-level
`validate_token_parameters` slot to the exact value captured before the
patch, whether the guarded body succeeds, requires further input, or
raises (the `finally` of the source) — the Warning-swallowing patch
never outlives one invocation. -/
theorem C10_thm (st : AuthState) (state : String) (fd : FlowData)
    (project_id : Option String) (outcome : Except String Unit)
    (user_projects : List Project) (ts : Int) :
    (complete_fetch_section st state fd project_id outcome
        user_projects ts).1.validator = st.validator ∧
    (asyncio_fetch_section st state fd project_id outcome
        user_projects ts).1.validator = st.validator :=
  ⟨rfl, rfl⟩

/-- Polling with a stale reference: once the state is gone from every
later tick of the trace and the held record has no code, the blocking
loop never terminates early and runs to fuel exhaustion. -/
theorem syncWaitLoop_stale (S : String) (trace : Nat → Store)
    (hrem : ∀ t, 1 ≤ t → (trace t).lookup S = none) :
    ∀ fuel fd tick, fd.code = none → syncWaitLoop S trace fuel fd tick = none := by
  intro fuel
  induction fuel with
  | zero => intro fd tick _; rfl
  | succ n ih =>
      intro fd tick hc
      have hf : pyTruthy fd.code = false := by rw [hc]; rfl
      simp only [syncWaitLoop, hf]
      rw [hrem (tick + 1) (Nat.le_add_left 1 tick)]
      simpa using ih fd (tick + 1) hc

/-- Cooperative-loop analogue: with the state removed from every later
tick and no code in the held record, the loop returns the stale record
unchanged after exhausting its budget. -/
theorem asyncioWaitLoop_stale (S : String) (trace : Nat → Store)
    (hrem : ∀ t, 1 ≤ t → (trace t).lookup S = none) :
    ∀ fuel fd tick, fd.code = none → asyncioWaitLoop S trace fuel fd tick = fd := by
  intro fuel
  induction fuel with
  | zero => intro fd tick _; rfl
  | succ n ih =>
      intro fd tick hc
      have hf : pyTruthy fd.code = false := by rw [hc]; rfl
      simp only [asyncioWaitLoop, hf]
      rw [hrem (tick + 1) (Nat.le_add_left 1 tick)]
      simpa using ih fd (tick + 1) hc

set_option maxRecDepth 40000 in
/-- Claim C3, counterexample: removing the flow while the waiter polls
does NOT produce a distinguishable not-found result.  The blocking
waiter returns the very same value (`none`) for a flow removed at tick
1 as for the deadline elapsing with no flow at all, and the cooperative
waiter returns the timed-out error result, not the not-found one. -/
theorem C3_counterexample :
    (wait_for_callback_sync "S"
        (fun t => if t = 0 then
          [("S", ⟨none, none, 8080, true, none, false, 100, true⟩)] else []) 600 =
      wait_for_callback_sync "S" (fun _ => []) 600) ∧
    asyncio_wait_phase none none
        (fun t => if t = 0 then
          [("S", ⟨none, none, 8080, true, none, false, 100, true⟩)] else []) =
      AsyncWaitOutcome.timeoutError := by
  decide

/-- Claim C3 (amended): a flow absent at call time yields the not-found
result — `none` for the blocking waiter, the not-found error for the
cooperative one — but a flow REMOVED while polling does not: the waiter
keeps its stale `flow_data` reference and runs to the deadline,
returning the timed-out result; for the blocking waiter that value
(`none`) is moreover identical to its not-found value, so the two
terminal conditions are not distinguishable there. -/
theorem C3_amended_thm (S : String) (trace trace2 : Nat → Store)
    (fuel : Nat) (fd : FlowData)
    (hfind : findFlow none none (trace 0) = some (S, fd))
    (hS : (trace 0).lookup S = some fd)
    (hcode : fd.code = none)
    (hrem : ∀ t, 1 ≤ t → (trace t).lookup S = none)
    (habs : (trace2 0).lookup S = none)
    (habs2 : findFlow none none (trace2 0) = none) :
    wait_for_callback_sync S trace2 fuel = none ∧
    asyncio_wait_phase none none trace2 = AsyncWaitOutcome.notFoundError ∧
    wait_for_callback_sync S trace fuel = none ∧
    asyncio_wait_phase none none trace = AsyncWaitOutcome.timeoutError := by
  refine ⟨?_, ?_, ?_, ?_⟩
  · unfold wait_for_callback_sync
    rw [habs]
  · unfold asyncio_wait_phase
    rw [habs2]
  · unfold wait_for_callback_sync
    rw [hS]
    exact syncWaitLoop_stale S trace hrem fuel fd 0 hcode
  · unfold asyncio_wait_phase
    rw [hfind]
    have h := asyncioWaitLoop_stale S trace hrem 60 fd 0 hcode
    simp only [h, hcode]

/-- Witness for C3_amended_thm on concrete traces: a store that never
holds the flow, and one that holds it only at tick 0. -/
theorem C3_amended_witness :
    wait_for_callback_sync "S" (fun _ => []) 600 = none ∧
    asyncio_wait_phase none none (fun _ => []) = AsyncWaitOutcome.notFoundError ∧
    wait_for_callback_sync "S"
      (fun t => if t = 0 then
        [("S", ⟨none, none, 8080, true, none, false, 100, true⟩)] else []) 600 = none ∧
    asyncio_wait_phase none none
      (fun t => if t = 0 then
        [("S", ⟨none, none, 8080, true, none, false, 100, true⟩)] else []) =
      AsyncWaitOutcome.timeoutError :=
  C3_amended_thm "S"
    (fun t => if t = 0 then
      [("S", ⟨none, none, 8080, true, none, false, 100, true⟩)] else [])
    (fun _ => []) 600 ⟨none, none, 8080, true, none, false, 100, true⟩
    (by decide) (by decide) rfl
    (by
      intro t ht
      cases t with
      | zero => exact absurd ht (by decide)
      | succ n => rfl)
    rfl rfl

/-- Claim C4, counterexample: with two or more candidates and no
"default" match the post-exchange resolution selects the FIRST
candidate instead of returning a selection-required result carrying the
candidates. -/
theorem C4_counterexample :
    resolve_project_after_exchange
        [⟨some "alpha", some "Alpha", none⟩, ⟨some "beta", some "Beta", none⟩] =
      ProjectResolution.resolved "alpha" ∧
    resolve_project_after_exchange
        [⟨some "alpha", some "Alpha", none⟩, ⟨some "beta", some "Beta", none⟩] ≠
      ProjectResolution.requiresSelection
        [⟨some "alpha", some "Alpha", none⟩, ⟨some "beta", some "Beta", none⟩] := by
  decide

/-- A truthy optional project id is a `some` of a nonempty string. -/
theorem pyTruthy_projectId (q : Project) (h : pyTruthy q.projectId = true) :
    ∃ s, q.projectId = some s ∧ s.isEmpty = false := by
  cases hq : q.projectId with
  | none => rw [hq] at h; exact absurd h (by decide)
  | some s =>
      rw [hq] at h
      exact ⟨s, rfl, by simpa [pyTruthy] using h⟩

/-- Claim C4 (amended): in the post-exchange auto-detection step, an
empty candidate list yields the manual-id-required result and a list in
which exactly one project matches "default" (case-insensitively, in
display name or id) yields that project — as claimed.  But two or more
candidates with NO "default" match yield the first candidate in input
order, not a selection-required result; the selection-required result
arises only when the heuristic pick has a falsy project id. -/
theorem C4_amended_thm (l1 l2 : List Project) (p : Project)
    (h1a : p ∈ l1) (h1b : isDefaultMatch p = true)
    (h1c : ∀ q ∈ l1, isDefaultMatch q = true → q = p)
    (h1d : ∀ q ∈ l1, pyTruthy q.projectId = true)
    (h2a : 2 ≤ l2.length)
    (h2b : ∀ q ∈ l2, isDefaultMatch q = false)
    (h2c : ∀ q ∈ l2, pyTruthy q.projectId = true) :
    resolve_project_after_exchange [] = ProjectResolution.requiresManual ∧
    resolve_project_after_exchange l1 =
      ProjectResolution.resolved (p.projectId.getD "") ∧
    resolve_project_after_exchange l2 =
      ProjectResolution.resolved (l2.headI.projectId.getD "") := by
  refine ⟨rfl, ?_, ?_⟩
  · cases l1 with
    | nil => cases h1a
    | cons first rest =>
        cases rest with
        | nil =>
            have hp : p = first := by
              cases h1a with
              | head => rfl
              | tail _ h => cases h
            subst hp
            obtain ⟨s, hs, hse⟩ := pyTruthy_projectId p (h1d p h1a)
            simp [resolve_project_after_exchange, hs, hse]
        | cons b bs =>
            have hfind : ∃ q, (first :: b :: bs).find? isDefaultMatch = some q := by
              have hsome := List.find?_isSome.mpr ⟨p, h1a, h1b⟩
              cases hq : (first :: b :: bs).find? isDefaultMatch with
              | none => rw [hq] at hsome; exact absurd hsome (by decide)
              | some q => exact ⟨q, rfl⟩
            obtain ⟨q, hq⟩ := hfind
            have hqp : q = p :=
              h1c q (List.mem_of_find?_eq_some hq) (List.find?_some hq)
            subst hqp
            obtain ⟨s, hs, hse⟩ := pyTruthy_projectId q (h1d q h1a)
            simp [resolve_project_after_exchange, select_default_project, hq, hs, hse]
  · cases l2 with
    | nil => exact absurd h2a (by decide)
    | cons first rest =>
        cases rest with
        | nil => simp at h2a
        | cons b bs =>
            have hnone : (first :: b :: bs).find? isDefaultMatch = none :=
              List.find?_eq_none.mpr (fun x hx => by simp [h2b x hx])
            obtain ⟨s, hs, hse⟩ :=
              pyTruthy_projectId first (h2c first (by simp))
            simp [resolve_project_after_exchange, select_default_project, hnone,
              hs, hse, List.headI]

/-- Witness for C4_amended_thm: three candidates with exactly one
"default" in its id, and two candidates with no "default" match. -/
theorem C4_amended_witness :
    resolve_project_after_exchange [] = ProjectResolution.requiresManual ∧
    resolve_project_after_exchange
        [⟨some "a", none, none⟩, ⟨some "my-DEFAULT", none, none⟩,
         ⟨some "c", none, none⟩] =
      ProjectResolution.resolved "my-DEFAULT" ∧
    resolve_project_after_exchange
        [⟨some "alpha", some "Alpha", none⟩, ⟨some "beta", some "Beta", none⟩] =
      ProjectResolution.resolved "alpha" :=
  C4_amended_thm
    [⟨some "a", none, none⟩, ⟨some "my-DEFAULT", none, none⟩, ⟨some "c", none, none⟩]
    [⟨some "alpha", some "Alpha", none⟩, ⟨some "beta", some "Beta", none⟩]
    ⟨some "my-DEFAULT", none, none⟩
    (by decide) (by decide) (by decide) (by decide) (by decide) (by decide) (by decide)

/-- Appending suffixes of different lengths to the same string yields
different strings. -/
theorem append_suffix_ne (a s t : String) (h : s.length ≠ t.length) :
    a ++ s ≠ a ++ t := by
  intro he
  apply h
  have h2 := congrArg String.length he
  simp [String.length_append] at h2
  omega

/-- The base filename and its first probed variant are distinct. -/
theorem probed_name_ne (base ts : String) :
    base ++ "-" ++ ts ++ "-" ++ toString 1 ++ ".json" ≠
      base ++ "-" ++ ts ++ ".json" := by
  have e1 : base ++ "-" ++ ts ++ "-" ++ toString 1 ++ ".json" =
      (base ++ "-" ++ ts) ++ ("-" ++ toString 1 ++ ".json") := by
    simp [String.append_assoc]
  have e2 : base ++ "-" ++ ts ++ ".json" = (base ++ "-" ++ ts) ++ ".json" := rfl
  rw [e1, e2]
  exact append_suffix_ne _ _ _ (by decide)

/-- Claim C5, counterexample: the OAuth persistence path
(`save_credentials`) performs no collision probing — a second persist
with the same `project_id` within the same timestamp second derives the
SAME filename and overwrites the existing credential file instead of
writing a distinct suffixed one. -/
theorem C5_counterexample :
    (save_credentials "p" 100 (save_credentials "p" 100 []).2.2).1 =
      (save_credentials "p" 100 []).1 ∧
    (save_credentials "p" 100 (save_credentials "p" 100 []).2.2).2.1 = true := by
  decide

/-- Claim C5 (amended): the uploaded-credential path probes numeric
suffixes and never overwrites — persisting twice with the same base
name and timestamp yields `base-ts.json` then the distinct
`base-ts-1.json`, neither overwriting an existing file.  The OAuth path
(`save_credentials`), by contrast, derives `projectId-timestamp.json`
with no probing: a second persist with identical arguments reuses the
same filename and overwrites. -/
theorem C5_amended_thm (base ts pid : String) (t : Int) (fs : FileSys)
    (fuel : Nat)
    (h0 : fs.contains (base ++ "-" ++ ts ++ ".json") = false)
    (h1 : fs.contains (base ++ "-" ++ ts ++ "-" ++ toString 1 ++ ".json") = false)
    (hfuel : 1 ≤ fuel) :
    (save_uploaded_credential base ts fs fuel).1 = base ++ "-" ++ ts ++ ".json" ∧
    (save_uploaded_credential base ts fs fuel).2.1 = false ∧
    (save_uploaded_credential base ts
        (save_uploaded_credential base ts fs fuel).2.2 fuel).1 =
      base ++ "-" ++ ts ++ "-" ++ toString 1 ++ ".json" ∧
    (save_uploaded_credential base ts
        (save_uploaded_credential base ts fs fuel).2.2 fuel).2.1 = false ∧
    (save_uploaded_credential base ts fs fuel).1 ≠
      (save_uploaded_credential base ts
        (save_uploaded_credential base ts fs fuel).2.2 fuel).1 ∧
    (save_credentials pid t fs).1 = pid ++ "-" ++ toString t ++ ".json" ∧
    (save_credentials pid t (save_credentials pid t fs).2.2).1 =
      (save_credentials pid t fs).1 ∧
    (save_credentials pid t (save_credentials pid t fs).2.2).2.1 = true := by
  obtain ⟨k, rfl⟩ : ∃ k, fuel = k + 1 := ⟨fuel - 1, by omega⟩
  have h0p : (base ++ "-" ++ ts ++ ".json") ∉ fs := by simpa using h0
  have h1p : (base ++ "-" ++ ts ++ "-" ++ toString 1 ++ ".json") ∉ fs := by
    simpa using h1
  have hr1 : save_uploaded_credential base ts fs (k + 1) =
      (base ++ "-" ++ ts ++ ".json", false, fs ++ [base ++ "-" ++ ts ++ ".json"]) := by
    simp [save_uploaded_credential, uploaded_file_name, h0p]
  have hc0 : (base ++ "-" ++ ts ++ ".json") ∈
      fs ++ [base ++ "-" ++ ts ++ ".json"] := by simp
  have hc1 : (base ++ "-" ++ ts ++ "-" ++ toString 1 ++ ".json") ∉
      fs ++ [base ++ "-" ++ ts ++ ".json"] := by
    simp [probed_name_ne base ts, h1p]
  have hr2 : save_uploaded_credential base ts
      (fs ++ [base ++ "-" ++ ts ++ ".json"]) (k + 1) =
      (base ++ "-" ++ ts ++ "-" ++ toString 1 ++ ".json", false,
        (fs ++ [base ++ "-" ++ ts ++ ".json"]) ++
          [base ++ "-" ++ ts ++ "-" ++ toString 1 ++ ".json"]) := by
    simp [save_uploaded_credential, uploaded_file_name, hc0, probeLoop, hc1]
  have hsc : (pid ++ "-" ++ toString t ++ ".json") ∈
      (save_credentials pid t fs).2.2 := by
    by_cases h : (pid ++ "-" ++ toString t ++ ".json") ∈ fs
    · simp [save_credentials, h]
    · simp [save_credentials, h]
  refine ⟨?_, ?_, ?_, ?_, ?_, rfl, rfl, ?_⟩
  · rw [hr1]
  · rw [hr1]
  · rw [hr1, hr2]
  · rw [hr1, hr2]
  · rw [hr1, hr2]
    exact fun he => probed_name_ne base ts he.symm
  · simp only [save_credentials]
    simpa [save_credentials] using hsc

/-- Witness for C5_amended_thm: two uploads of `b.json` and two OAuth
persists for project `p`, all at timestamp 100, on an empty directory. -/
theorem C5_amended_witness :
    (save_uploaded_credential "b" "100" [] 1).1 = "b-100.json" ∧
    (save_uploaded_credential "b" "100" [] 1).2.1 = false ∧
    (save_uploaded_credential "b" "100"
        (save_uploaded_credential "b" "100" [] 1).2.2 1).1 = "b-100-1.json" ∧
    (save_uploaded_credential "b" "100"
        (save_uploaded_credential "b" "100" [] 1).2.2 1).2.1 = false ∧
    (save_uploaded_credential "b" "100" [] 1).1 ≠
      (save_uploaded_credential "b" "100"
        (save_uploaded_credential "b" "100" [] 1).2.2 1).1 ∧
    (save_credentials "p" 100 []).1 = "p-100.json" ∧
    (save_credentials "p" 100 (save_credentials "p" 100 []).2.2).1 =
      (save_credentials "p" 100 []).1 ∧
    (save_credentials "p" 100 (save_credentials "p" 100 []).2.2).2.1 = true :=
  C5_amended_thm "b" "100" "p" 100 [] 1 (by decide) (by decide) (by decide)

/-- Claim C6: a sweep removes every flow strictly older than the 600 s
TTL — attempting a listener shutdown for it when it holds a server —
and removes no flow of age at most the TTL; and a successful
`create_auth_url` runs exactly this sweep over the store holding the
newly registered flow. -/
theorem C6_thm (now : Int) (store : Store) (p q : String × FlowData)
    (hp : p ∈ store) (hpold : now - p.2.created_at > EXPIRY_TIME)
    (hpserver : p.2.server = true)
    (hq : q ∈ store) (hqyoung : now - q.2.created_at ≤ EXPIRY_TIME)
    (avail : Nat → Bool) (start : Nat) (osAssigned : Option Nat) (port : Nat)
    (listenerOk : Nat → Bool) (project_id user_session : Option String)
    (uuid authUrl : String)
    (hport : find_available_port avail start osAssigned = some port)
    (hlist : listenerOk port = true) :
    p ∉ (cleanup_expired_flows now store).1 ∧
    p.2.callback_port ∈ (cleanup_expired_flows now store).2 ∧
    q ∈ (cleanup_expired_flows now store).1 ∧
    (create_auth_url avail start osAssigned listenerOk project_id user_session
        uuid authUrl now store).1 =
      (cleanup_expired_flows now
        (storeInsert (mkState user_session uuid)
          (newFlowData project_id user_session port now) store)).1 := by
  refine ⟨?_, ?_, ?_, ?_⟩
  · intro hmem
    have h2 := (List.mem_filter.mp hmem).2
    rw [Bool.not_eq_true'] at h2
    exact absurd hpold (of_decide_eq_false h2)
  · apply List.mem_map.mpr
    refine ⟨p, List.mem_filter.mpr ⟨List.mem_filter.mpr ⟨hp, ?_⟩, hpserver⟩, rfl⟩
    exact decide_eq_true hpold
  · apply List.mem_filter.mpr
    refine ⟨hq, ?_⟩
    rw [Bool.not_eq_true']
    exact decide_eq_false (fun hgt => absurd hgt (not_lt.mpr hqyoung))
  · simp [create_auth_url, hport, hlist]

/-- Witness for C6_thm: a store holding one expired and one fresh
flow, swept at time 1000, alongside a successful creation. -/
theorem C6_witness :
    ("old", (⟨none, none, 9001, true, none, false, 0, true⟩ : FlowData)) ∉
      (cleanup_expired_flows 1000
        [("old", ⟨none, none, 9001, true, none, false, 0, true⟩),
         ("new", ⟨none, none, 9002, true, none, false, 900, true⟩)]).1 ∧
    9001 ∈ (cleanup_expired_flows 1000
        [("old", ⟨none, none, 9001, true, none, false, 0, true⟩),
         ("new", ⟨none, none, 9002, true, none, false, 900, true⟩)]).2 ∧
    ("new", (⟨none, none, 9002, true, none, false, 900, true⟩ : FlowData)) ∈
      (cleanup_expired_flows 1000
        [("old", ⟨none, none, 9001, true, none, false, 0, true⟩),
         ("new", ⟨none, none, 9002, true, none, false, 900, true⟩)]).1 ∧
    (create_auth_url (fun _ => true) 8080 none (fun _ => true) none none
        "u" "url" 1000
        [("old", ⟨none, none, 9001, true, none, false, 0, true⟩),
         ("new", ⟨none, none, 9002, true, none, false, 900, true⟩)]).1 =
      (cleanup_expired_flows 1000
        (storeInsert (mkState none "u") (newFlowData none none 8080 1000)
          [("old", ⟨none, none, 9001, true, none, false, 0, true⟩),
           ("new", ⟨none, none, 9002, true, none, false, 900, true⟩)])).1 :=
  C6_thm 1000
    [("old", ⟨none, none, 9001, true, none, false, 0, true⟩),
     ("new", ⟨none, none, 9002, true, none, false, 900, true⟩)]
    ("old", ⟨none, none, 9001, true, none, false, 0, true⟩)
    ("new", ⟨none, none, 9002, true, none, false, 900, true⟩)
    (by decide) (by decide) rfl (by decide) (by decide)
    (fun _ => true) 8080 none 8080 (fun _ => true) none none "u" "url"
    (by decide) rfl

/-- Filtering never makes an absent key present. -/
theorem lookup_filter_none {β : Type} (p : String × β → Bool)
    (l : List (String × β)) (k : String) (h : l.lookup k = none) :
    (l.filter p).lookup k = none := by
  induction l with
  | nil => rfl
  | cons a t ih =>
      obtain ⟨x, y⟩ := a
      by_cases hk : (k == x) = true
      · simp [List.lookup, hk] at h
      · rw [Bool.not_eq_true] at hk
        simp only [List.lookup, hk] at h
        by_cases hp : p (x, y) = true
        · simp [List.filter, hp, List.lookup, hk, ih h]
        · rw [Bool.not_eq_true] at hp
          simp [List.filter, hp, ih h]

/-- Erasing the appended entry of an otherwise `k`-free table restores
the table. -/
theorem eraseP_append_single {β : Type} (l : List (String × β)) (k : String)
    (v : β) (h : l.lookup k = none) :
    (l ++ [(k, v)]).eraseP (fun p => p.1 == k) = l := by
  induction l with
  | nil => simp [List.eraseP]
  | cons a t ih =>
      obtain ⟨x, y⟩ := a
      by_cases hk : (k == x) = true
      · simp [List.lookup, hk] at h
      · rw [Bool.not_eq_true] at hk
        simp only [List.lookup, hk] at h
        have hxk : (x == k) = false := by
          rw [beq_eq_false_iff_ne] at hk ⊢
          exact fun he => hk he.symm
        simp [List.eraseP_cons, hxk, ih h]

/-- Claim C9: a panel token issued at `t0` verifies true at any time
strictly before the 21600 s TTL has elapsed; once strictly more than
the TTL has elapsed it verifies false and is deleted from the table as
a side effect; and after explicit invalidation it verifies false at any
time whatsoever. -/
theorem C9_thm (tok : String) (t0 now1 now2 now3 : Int) (tokens : TokenTable)
    (htok : tok.isEmpty = false)
    (hfresh : tokens.lookup tok = none)
    (h1 : now1 - t0 < TOKEN_EXPIRY)
    (h2 : now2 - t0 > TOKEN_EXPIRY) :
    (verify_auth_token tok now1 (generate_auth_token tok t0 tokens).2).1 = true ∧
    (verify_auth_token tok now2 (generate_auth_token tok t0 tokens).2).1 = false ∧
    ((verify_auth_token tok now2 (generate_auth_token tok t0 tokens).2).2).lookup
      tok = none ∧
    (verify_auth_token tok now3
        (invalidate_auth_token tok (generate_auth_token tok t0 tokens).2)).1 =
      false := by
  have hclean : (cleanup_expired_tokens t0 tokens).lookup tok = none :=
    lookup_filter_none _ tokens tok hfresh
  have htab : (generate_auth_token tok t0 tokens).2 =
      cleanup_expired_tokens t0 tokens ++ [(tok, t0)] := by
    simp [generate_auth_token, tokenInsert, hclean]
  have hlook : (cleanup_expired_tokens t0 tokens ++ [(tok, t0)]).lookup tok =
      some t0 := by
    rw [List.lookup_append, hclean]
    simp [List.lookup]
  have herase : (cleanup_expired_tokens t0 tokens ++ [(tok, t0)]).eraseP
      (fun p => p.1 == tok) = cleanup_expired_tokens t0 tokens :=
    eraseP_append_single _ tok t0 hclean
  have hlt1 : ¬(now1 - t0 > TOKEN_EXPIRY) := not_lt.mpr (le_of_lt h1)
  refine ⟨?_, ?_, ?_, ?_⟩
  · simp [verify_auth_token, pyTruthy, htok, htab, hlook, hlt1]
  · simp [verify_auth_token, pyTruthy, htok, htab, hlook, h2]
  · simp [verify_auth_token, pyTruthy, htok, htab, hlook, h2, herase, hclean]
  · have hinv : invalidate_auth_token tok (generate_auth_token tok t0 tokens).2 =
        cleanup_expired_tokens t0 tokens := by
      simp [invalidate_auth_token, htab, hlook, herase]
    simp [verify_auth_token, pyTruthy, htok, hinv, hclean]

/-- Witness for C9_thm: token issued at time 0, verified at 100 and at
30000, and after invalidation at 50, starting from an empty table. -/
theorem C9_witness :
    (verify_auth_token "t" 100 (generate_auth_token "t" 0 []).2).1 = true ∧
    (verify_auth_token "t" 30000 (generate_auth_token "t" 0 []).2).1 = false ∧
    ((verify_auth_token "t" 30000 (generate_auth_token "t" 0 []).2).2).lookup
      "t" = none ∧
    (verify_auth_token "t" 50
        (invalidate_auth_token "t" (generate_auth_token "t" 0 []).2)).1 = false :=
  C9_thm "t" 0 100 30000 50 [] (by decide) rfl (by decide) (by decide)

/-- The eviction comparator is transitive. -/
theorem flowsLe_trans : ∀ a b c : String × FlowData,
    flowsLe a b = true → flowsLe b c = true → flowsLe a c = true := by
  intro a b c hab hbc
  simp [flowsLe] at *
  omega

/-- The eviction comparator is total. -/
theorem flowsLe_total : ∀ a b : String × FlowData,
    (flowsLe a b || flowsLe b a) = true := by
  intro a b
  rcases le_total a.2.created_at b.2.created_at with h | h <;> simp [flowsLe, h]

/-- Taking 10 from the descending sort of a list longer than 10 yields
exactly 10 entries. -/
theorem take_flowsByNewest_len (L : Store) (hlen : 10 < L.length) :
    ((flowsByNewest L).take 10).length = 10 := by
  unfold flowsByNewest
  rw [List.length_take]
  have hperm := (List.mergeSort_perm L flowsLe).length_eq
  omega

/-- Membership in the 10 newest: with pairwise-distinct timestamps, an
entry survives the count-based cut iff fewer than 10 entries are
strictly newer. -/
theorem take_flowsByNewest_mem (L : Store) (p : String × FlowData)
    (hnd : L.Nodup)
    (hinj : ∀ a ∈ L, ∀ b ∈ L, a.2.created_at = b.2.created_at → a = b)
    (hp : p ∈ L) :
    (p ∈ (flowsByNewest L).take 10 ↔
      (L.filter (fun q => p.2.created_at < q.2.created_at)).length < 10) := by
  unfold flowsByNewest
  have hperm : (L.mergeSort flowsLe).Perm L := List.mergeSort_perm L flowsLe
  have hsorted := List.sorted_mergeSort flowsLe_trans flowsLe_total L
  have hpM : p ∈ L.mergeSort flowsLe := hperm.mem_iff.mpr hp
  have hndM : (L.mergeSort flowsLe).Nodup := hperm.nodup_iff.mpr hnd
  obtain ⟨u, v, huv⟩ := List.append_of_mem hpM
  rw [huv] at hperm hsorted hndM ⊢
  obtain ⟨hu, hpv, hcross⟩ := List.pairwise_append.mp hsorted
  obtain ⟨hndu, hndpv, hdisj⟩ := List.nodup_append.mp hndM
  have hpu : p ∉ u := fun hmem => hdisj hmem (List.mem_cons_self p v)
  have hfilter2 : List.filter
      (fun q => decide (p.2.created_at < q.2.created_at)) (p :: v) = [] := by
    rw [List.filter_eq_nil_iff]
    intro b hb
    cases hb with
    | head => simp
    | tail _ hbv =>
        have hle := (List.pairwise_cons.mp hpv).1 b hbv
        simp [flowsLe] at hle ⊢
        omega
  have hfilter1 : List.filter
      (fun q => decide (p.2.created_at < q.2.created_at)) u = u := by
    rw [List.filter_eq_self]
    intro a ha
    have hR := hcross a ha p (List.mem_cons_self p v)
    have hne : a ≠ p := fun he => hpu (he ▸ ha)
    have haL : a ∈ L := hperm.subset (List.mem_append_left _ ha)
    simp [flowsLe] at hR ⊢
    rcases lt_or_eq_of_le hR with hlt | heq
    · exact hlt
    · exact absurd (hinj a haL p hp heq.symm) hne
  have hcount : (L.filter
      (fun q => decide (p.2.created_at < q.2.created_at))).length = u.length := by
    have h1 := (List.Perm.filter
      (fun q => decide (p.2.created_at < q.2.created_at)) hperm).length_eq
    rw [List.filter_append, hfilter1, hfilter2] at h1
    simpa using h1.symm
  rw [hcount]
  constructor
  · intro hmem
    by_contra h10
    rw [List.take_append_eq_append_take] at hmem
    have h0 : 10 - u.length = 0 := by omega
    rw [h0] at hmem
    simp at hmem
    exact hpu (List.take_subset _ _ hmem)
  · intro h10
    rw [List.take_append_eq_append_take]
    obtain ⟨m, hm⟩ : ∃ m, 10 - u.length = m + 1 := ⟨10 - u.length - 1, by omega⟩
    rw [hm]
    exact List.mem_append_right _ (by simp)

/-- Claim C7: after the expiry sweep, the count-based step of
`cleanup_auth_flows_for_memory` removes nothing when at most 10 flows
remain; when more than 10 remain (with pairwise-distinct `created_at`)
it retains exactly 10 surviving flows, namely those with fewer than 10
strictly-newer survivors — i.e. the 10 largest timestamps. -/
theorem C7_thm (now : Int) (sA sB : Store) (p : String × FlowData)
    (hA : (cleanup_expired_flows now sA).1.length ≤ 10)
    (hBlen : 10 < (cleanup_expired_flows now sB).1.length)
    (hBkeys : ((cleanup_expired_flows now sB).1.map Prod.fst).Nodup)
    (hBinj : ∀ a ∈ (cleanup_expired_flows now sB).1,
      ∀ b ∈ (cleanup_expired_flows now sB).1,
        a.2.created_at = b.2.created_at → a = b) :
    (cleanup_auth_flows_for_memory now sA).1 = (cleanup_expired_flows now sA).1 ∧
    (cleanup_auth_flows_for_memory now sB).1.length = 10 ∧
    (p ∈ (cleanup_auth_flows_for_memory now sB).1 →
      p ∈ (cleanup_expired_flows now sB).1) ∧
    (p ∈ (cleanup_expired_flows now sB).1 →
      (p ∈ (cleanup_auth_flows_for_memory now sB).1 ↔
        ((cleanup_expired_flows now sB).1.filter
          (fun q => p.2.created_at < q.2.created_at)).length < 10)) := by
  have hBeq : (cleanup_auth_flows_for_memory now sB).1 =
      (flowsByNewest (cleanup_expired_flows now sB).1).take 10 := by
    simp only [cleanup_auth_flows_for_memory]
    rw [if_pos hBlen]
  have hnd : (cleanup_expired_flows now sB).1.Nodup :=
    List.Nodup.of_map Prod.fst hBkeys
  refine ⟨?_, ?_, ?_, ?_⟩
  · have hc : ¬((cleanup_expired_flows now sA).1.length > 10) := by omega
    simp only [cleanup_auth_flows_for_memory]
    rw [if_neg hc]
  · rw [hBeq]
    exact take_flowsByNewest_len _ hBlen
  · rw [hBeq]
    intro hm
    exact (List.mergeSort_perm _ flowsLe).subset (List.take_subset _ _ hm)
  · intro hpL
    rw [hBeq]
    exact take_flowsByNewest_mem _ p hnd hBinj hpL

/-- Witness for C7_thm: an empty store for the no-op case and a store
of 11 fresh flows with distinct timestamps 0..10, probing the newest
flow's survival of the cut. -/
theorem C7_witness :
    (cleanup_auth_flows_for_memory 0 []).1 = (cleanup_expired_flows 0 []).1 ∧
    (cleanup_auth_flows_for_memory 0
        ((List.range 11).map (fun i => (toString i,
          (⟨none, none, i, true, none, false, (i : Int), true⟩ : FlowData))))).1.length
      = 10 ∧
    (("10", (⟨none, none, 10, true, none, false, 10, true⟩ : FlowData)) ∈
        (cleanup_auth_flows_for_memory 0
          ((List.range 11).map (fun i => (toString i,
            (⟨none, none, i, true, none, false, (i : Int), true⟩ : FlowData))))).1 ↔
      (((cleanup_expired_flows 0
          ((List.range 11).map (fun i => (toString i,
            (⟨none, none, i, true, none, false, (i : Int), true⟩ : FlowData))))).1.filter
        (fun q => (10 : Int) < q.2.created_at)).length < 10)) :=
  ⟨(C7_thm 0 []
      ((List.range 11).map (fun i => (toString i,
        (⟨none, none, i, true, none, false, (i : Int), true⟩ : FlowData))))
      ("10", ⟨none, none, 10, true, none, false, 10, true⟩)
      (by decide) (by decide) (by decide) (by decide)).1,
   (C7_thm 0 []
      ((List.range 11).map (fun i => (toString i,
        (⟨none, none, i, true, none, false, (i : Int), true⟩ : FlowData))))
      ("10", ⟨none, none, 10, true, none, false, 10, true⟩)
      (by decide) (by decide) (by decide) (by decide)).2.1,
   (C7_thm 0 []
      ((List.range 11).map (fun i => (toString i,
        (⟨none, none, i, true, none, false, (i : Int), true⟩ : FlowData))))
      ("10", ⟨none, none, 10, true, none, false, 10, true⟩)
      (by decide) (by decide) (by decide) (by decide)).2.2.2 (by decide)⟩

end GCLI
